import Mathlib

/-!
# Verification of the wound-care record-keeping application

Shallow embedding of the authentication service, the role-permission
table, the request-filtering middleware, and the patient / wound REST
route handlers of the `sistema-gestao-feridas` repository, together
with theorems settling the specification's testable properties.

Conventions used throughout:
* TypeScript `string` is `String`, JS numbers that carry clinical
  measurements are `ℚ` (the route logic only multiplies and compares
  them), counts and Unix timestamps (seconds) are `Nat`.
* A TS optional field (`T | undefined`) is `Option T`.
* zod-validated request bodies are embedded as structures holding the
  parsed (typed) payload; the extra string-shape constraints of the
  schema are separate boolean predicates.
* Fallible handlers return an explicit result inductive; a `status`
  function maps each constructor to the literal HTTP status code the
  handler passes to `NextResponse.json`.
-/

/-- JavaScript truthiness of `a || b` for an optional string: the
right operand is used when the left is `undefined` or the empty
string (both falsy in JS). -/
def jsOrStr (a : Option String) (b : String) : String :=
  match a with
  | none => b
  | some s => if s == "" then b else s

/-! ## Session / identity service (`lib/auth.ts`)

`AuthService.generateToken` and `AuthService.verifyToken` wrap the
`jsonwebtoken` library, which is a third-party dependency and not part
of this repository.  The library is embedded by its documented
contract: `sign` embeds the claims together with an expiry timestamp
`now + ttl` and a signature keyed by the server secret; `verify`
returns the claims when the signature matches the secret and the
current time is strictly before the expiry, and throws (here: `none`)
otherwise.  A token signed with a different secret models a token
whose signature does not verify. -/

/-- The `UserRole` enum (from the Prisma client) as used by the
role-permission table: exactly the six roles the table enumerates. -/
inductive UserRole where
  | ADMIN
  | DOCTOR
  | NURSE
  | PHYSIOTHERAPIST
  | NUTRITIONIST
  | PATIENT
deriving DecidableEq, Repr

/-- The string value of a `UserRole` (Prisma enum values serialize to
their names; these are also the keys of `ROLE_PERMISSIONS`). -/
def UserRole.key : UserRole → String
  | .ADMIN => "ADMIN"
  | .DOCTOR => "DOCTOR"
  | .NURSE => "NURSE"
  | .PHYSIOTHERAPIST => "PHYSIOTHERAPIST"
  | .NUTRITIONIST => "NUTRITIONIST"
  | .PATIENT => "PATIENT"

/-- `JWTPayload` interface of `lib/auth.ts`. -/
structure JWTPayload where
  userId : String
  email : String
  role : UserRole
  name : String
deriving DecidableEq, Repr

/-- A signed JWT as issued by `jwt.sign(payload, JWT_SECRET,
{ expiresIn })`: the embedded claims, the issued-at and expiry
timestamps (seconds), and the secret the signature was keyed with. -/
structure SignedToken where
  payload : JWTPayload
  iat : Nat
  exp : Nat
  secret : String
deriving DecidableEq, Repr

/-- `'7d'`, the access-token TTL passed to `jwt.sign`, in seconds. -/
def sevenDays : Nat := 7 * 24 * 60 * 60

/-- `jwt.sign(payload, secret, { expiresIn: ttl })`. -/
def jwtSign (payload : JWTPayload) (secret : String) (now ttl : Nat) : SignedToken :=
  { payload := payload, iat := now, exp := now + ttl, secret := secret }

/-- `jwt.verify(token, secret)`: succeeds iff the signature is keyed
with `secret` and the clock is strictly before `exp` (the library
throws `TokenExpiredError` when `now >= exp`). -/
def jwtVerify (token : SignedToken) (secret : String) (now : Nat) : Option JWTPayload :=
  if token.secret == secret && decide (now < token.exp) then some token.payload else none

/-- `AuthService.generateToken`: `jwt.sign(payload, JWT_SECRET, { expiresIn: '7d' })`. -/
def generateToken (secret : String) (now : Nat) (payload : JWTPayload) : SignedToken :=
  jwtSign payload secret now sevenDays

/-- `AuthService.verifyToken`: `jwt.verify` inside `try/catch`,
returning `null` (here `none`) on any verification failure. -/
def verifyToken (secret : String) (now : Nat) (token : SignedToken) : Option JWTPayload :=
  jwtVerify token secret now

/-! ## RBAC permission table (`lib/auth.ts`) -/

/-- `Object.values(PERMISSIONS)` in insertion order. -/
def PERMISSIONS_values : List String :=
  [ "patient:create", "patient:read", "patient:update", "patient:delete",
    "wound:create", "wound:read", "wound:update", "wound:delete",
    "treatment:create", "treatment:read", "treatment:update", "treatment:delete",
    "reports:read", "reports:export",
    "user:manage", "system:config",
    "telemedicine:access", "telemedicine:moderate" ]

/-- `ROLE_PERMISSIONS`, the static `Record<UserRole, string[]>`,
embedded as an association list keyed by the role's string value. -/
def ROLE_PERMISSIONS : List (String × List String) :=
  [ ("ADMIN", PERMISSIONS_values),
    ("DOCTOR",
      [ "patient:create", "patient:read", "patient:update",
        "wound:create", "wound:read", "wound:update",
        "treatment:create", "treatment:read", "treatment:update",
        "reports:read",
        "telemedicine:access", "telemedicine:moderate" ]),
    ("NURSE",
      [ "patient:read", "patient:update",
        "wound:create", "wound:read", "wound:update",
        "treatment:create", "treatment:read", "treatment:update",
        "telemedicine:access" ]),
    ("PHYSIOTHERAPIST",
      [ "patient:read", "wound:read",
        "treatment:read", "treatment:update",
        "telemedicine:access" ]),
    ("NUTRITIONIST",
      [ "patient:read", "wound:read", "treatment:read",
        "telemedicine:access" ]),
    ("PATIENT",
      [ "telemedicine:access" ]) ]

/-- `hasPermission(userRole, permission)`:
`ROLE_PERMISSIONS[userRole]?.includes(permission) || false`.  A key
absent from the table makes the optional chain yield `undefined`, so
the `|| false` makes the call return `false`. -/
def hasPermission (userRole : String) (permission : String) : Bool :=
  match ROLE_PERMISSIONS.lookup userRole with
  | some perms => perms.contains permission
  | none => false

/-! ## Data model

Relational records as flat structures (Prisma models, `prisma/migrations`).
Only the scalar fields the route handlers read or write are listed;
`createdAt` ordering is a permutation of the result list and is not
modelled because no verified property depends on item order. -/

/-- A patient record (`patients` table).  `birthDate` is kept as the
raw string the schema receives (`z.string().transform(new Date)`).
`status` defaults to `'ATIVO'` at creation (migration default). -/
structure Patient where
  id : String
  name : String
  cpf : String
  rg : Option String
  birthDate : String
  gender : String
  phone : Option String
  email : Option String
  address : Option String
  city : Option String
  state : Option String
  zipCode : Option String
  emergencyContact : Option String
  emergencyPhone : Option String
  allergies : Option String
  comorbidities : Option String
  medications : Option String
  observations : Option String
  responsibleId : String
  status : String
  updatedAt : Nat
deriving DecidableEq, Repr

/-- A wound record (`wounds` table): the fields of `createWoundSchema`
plus `id`, `status`, `createdById`, `updatedAt`. -/
structure Wound where
  id : String
  patientId : String
  location : String
  type : String
  stage : Option String
  length : Option ℚ
  width : Option ℚ
  depth : Option ℚ
  area : Option ℚ
  tissueType : Option String
  exudate : Option String
  exudateType : Option String
  odor : Option String
  pain : Option ℚ
  edema : Option Bool
  infection : Option Bool
  temperature : Option String
  periwoundSkin : Option String
  description : Option String
  riskFactors : Option String
  previousTreatments : Option String
  status : String
  createdById : String
  updatedAt : Nat
deriving DecidableEq, Repr

/-- A treatment record, reduced to the keys the wound routes read. -/
structure Treatment where
  id : String
  woundId : String
  patientId : String
deriving DecidableEq, Repr

/-- A wound-image record (`wound_images` table). -/
structure WoundImage where
  id : String
  woundId : String
  url : String
  description : Option String
deriving DecidableEq, Repr

/-- The relational store the route handlers operate on. -/
structure DB where
  patients : List Patient
  wounds : List Wound
  treatments : List Treatment
  images : List WoundImage
deriving DecidableEq, Repr

/-! ## Wound routes (`app/api/wounds/route.ts`, `app/api/wounds/[id]/route.ts`) -/

/-- The parsed image of `createWoundSchema` (no `status` field: the
create schema does not accept one). -/
structure CreateWoundInput where
  patientId : String
  location : String
  type : String
  stage : Option String
  length : Option ℚ
  width : Option ℚ
  depth : Option ℚ
  area : Option ℚ
  tissueType : Option String
  exudate : Option String
  exudateType : Option String
  odor : Option String
  pain : Option ℚ
  edema : Option Bool
  infection : Option Bool
  temperature : Option String
  periwoundSkin : Option String
  description : Option String
  riskFactors : Option String
  previousTreatments : Option String
deriving DecidableEq, Repr

/-- `z.number().positive()` on an optional field. -/
def optPos (o : Option ℚ) : Bool := o.all (fun q => decide (0 < q))

/-- `z.enum([...])` membership on an optional field. -/
def optMem (o : Option String) (allowed : List String) : Bool :=
  o.all (fun s => allowed.contains s)

/-- The value constraints of `createWoundSchema` on a parsed payload:
non-empty ids/locations, enum membership, positivity of measurements,
pain in `[0, 10]`. -/
def createWoundValid (p : CreateWoundInput) : Bool :=
  (p.patientId != "") && (p.location != "") &&
  ["PRESSURE_ULCER", "DIABETIC_ULCER", "VENOUS_ULCER", "ARTERIAL_ULCER",
   "SURGICAL", "TRAUMATIC", "OTHER"].contains p.type &&
  optMem p.stage ["STAGE_1", "STAGE_2", "STAGE_3", "STAGE_4",
                  "UNSTAGEABLE", "SUSPECTED_DTI"] &&
  optPos p.length && optPos p.width && optPos p.depth && optPos p.area &&
  optMem p.tissueType ["GRANULATION", "EPITHELIAL", "SLOUGH", "NECROTIC", "MIXED"] &&
  optMem p.exudate ["NONE", "MINIMAL", "MODERATE", "HEAVY"] &&
  optMem p.exudateType ["SEROUS", "SANGUINEOUS", "SEROSANGUINEOUS", "PURULENT"] &&
  optMem p.odor ["NONE", "MILD", "MODERATE", "STRONG"] &&
  p.pain.all (fun q => decide (0 ≤ q) && decide (q ≤ 10)) &&
  optMem p.temperature ["NORMAL", "WARM", "HOT", "COOL"] &&
  optMem p.periwoundSkin ["INTACT", "MACERATED", "EXCORIATED", "INDURATED", "ERYTHEMATOUS"]

/-- JS truthiness of an optional number: `undefined` and `0` are
falsy, every other rational is truthy (`NaN` has no counterpart in ℚ). -/
def qTruthy (o : Option ℚ) : Bool := o.any (fun q => q != 0)

/-- The derived-area computation shared by the wound POST and PUT
handlers:
`let calculatedArea = validatedData.area;`
`if (!calculatedArea && validatedData.length && validatedData.width)`
`  calculatedArea = validatedData.length * validatedData.width`. -/
def computeWoundArea (area len wid : Option ℚ) : Option ℚ :=
  if !qTruthy area && qTruthy len && qTruthy wid then
    some (len.getD 0 * wid.getD 0)
  else area

/-- Result of `POST /api/wounds`. -/
inductive WoundPostResult where
  | invalid
  | patientNotFound
  | created (w : Wound)
deriving DecidableEq, Repr

/-- HTTP status code of each `POST /api/wounds` outcome. -/
def WoundPostResult.statusCode : WoundPostResult → Nat
  | .invalid => 400
  | .patientNotFound => 404
  | .created _ => 201

/-- The record `prisma.wound.create` persists:
`{ ...validatedData, area: calculatedArea, status: 'ACTIVE',
createdById: userId }`. -/
def mkWoundRecord (newId : String) (now : Nat) (userId : String)
    (p : CreateWoundInput) : Wound :=
  { id := newId, patientId := p.patientId, location := p.location,
    type := p.type, stage := p.stage, length := p.length,
    width := p.width, depth := p.depth,
    area := computeWoundArea p.area p.length p.width,
    tissueType := p.tissueType, exudate := p.exudate,
    exudateType := p.exudateType, odor := p.odor, pain := p.pain,
    edema := p.edema, infection := p.infection,
    temperature := p.temperature, periwoundSkin := p.periwoundSkin,
    description := p.description, riskFactors := p.riskFactors,
    previousTreatments := p.previousTreatments,
    status := "ACTIVE", createdById := userId, updatedAt := now }

/-- `POST /api/wounds`: validate, check the referenced patient exists
(404), read `x-user-id` with fallback `'user-1'`, derive `area`, and
create the record with `status: 'ACTIVE'` and `createdById`. -/
def woundPOST (db : DB) (headerUserId : Option String) (newId : String)
    (now : Nat) (p : CreateWoundInput) : DB × WoundPostResult :=
  if !createWoundValid p then (db, .invalid)
  else if (db.patients.find? (fun q => q.id == p.patientId)).isNone then
    (db, .patientNotFound)
  else
    let w := mkWoundRecord newId now (jsOrStr headerUserId "user-1") p
    ({ db with wounds := db.wounds ++ [w] }, .created w)

/-- The parsed image of `updateWoundSchema` (every field optional;
this schema does accept a `status` field). -/
structure UpdateWoundInput where
  location : Option String
  type : Option String
  stage : Option String
  status : Option String
  length : Option ℚ
  width : Option ℚ
  depth : Option ℚ
  area : Option ℚ
  tissueType : Option String
  exudate : Option String
  exudateType : Option String
  odor : Option String
  pain : Option ℚ
  edema : Option Bool
  infection : Option Bool
  temperature : Option String
  periwoundSkin : Option String
  description : Option String
  riskFactors : Option String
  previousTreatments : Option String
deriving DecidableEq, Repr

/-- The value constraints of `updateWoundSchema` (its enum value sets
differ from the create schema's). -/
def updateWoundValid (p : UpdateWoundInput) : Bool :=
  p.location.all (fun s => s != "") &&
  optMem p.type ["ULCERA_PRESSAO", "ULCERA_DIABETICA", "FERIDA_CIRURGICA",
                 "QUEIMADURA", "LESAO_FRICCAO", "OUTRAS"] &&
  optMem p.stage ["ESTAGIO_I", "ESTAGIO_II", "ESTAGIO_III", "ESTAGIO_IV"] &&
  optMem p.status ["CICATRIZANDO", "ESTAVEL", "DETERIORANDO", "INFECTADA"] &&
  optPos p.length && optPos p.width && optPos p.depth && optPos p.area &&
  optMem p.tissueType ["GRANULACAO", "NECROSE", "FIBRINA", "EPITELIZACAO"] &&
  optMem p.exudate ["NONE", "MINIMAL", "MODERATE", "HEAVY"] &&
  optMem p.exudateType ["SEROUS", "SANGUINEOUS", "SEROSANGUINEOUS", "PURULENT"] &&
  optMem p.odor ["NONE", "MILD", "MODERATE", "STRONG"] &&
  p.pain.all (fun q => decide (0 ≤ q) && decide (q ≤ 10)) &&
  optMem p.temperature ["NORMAL", "WARM", "HOT", "COOL"] &&
  optMem p.periwoundSkin ["INTACT", "MACERATED", "EXCORIATED", "INDURATED", "ERYTHEMATOUS"]

/-- Applying the `prisma.wound.update` data object
`{ ...validatedData, area: calculatedArea, updatedAt: new Date() }` to
an existing record: a provided field overwrites, an `undefined` field
is left unchanged (Prisma skips `undefined` values), and `area` is the
derived value when the derivation produced one. -/
def applyWoundUpdate (w : Wound) (p : UpdateWoundInput) (now : Nat) : Wound :=
  { w with
    location := p.location.getD w.location,
    type := p.type.getD w.type,
    stage := (p.stage.map some).getD w.stage,
    status := p.status.getD w.status,
    length := (p.length.map some).getD w.length,
    width := (p.width.map some).getD w.width,
    depth := (p.depth.map some).getD w.depth,
    area := ((computeWoundArea p.area p.length p.width).map some).getD w.area,
    tissueType := (p.tissueType.map some).getD w.tissueType,
    exudate := (p.exudate.map some).getD w.exudate,
    exudateType := (p.exudateType.map some).getD w.exudateType,
    odor := (p.odor.map some).getD w.odor,
    pain := (p.pain.map some).getD w.pain,
    edema := (p.edema.map some).getD w.edema,
    infection := (p.infection.map some).getD w.infection,
    temperature := (p.temperature.map some).getD w.temperature,
    periwoundSkin := (p.periwoundSkin.map some).getD w.periwoundSkin,
    description := (p.description.map some).getD w.description,
    riskFactors := (p.riskFactors.map some).getD w.riskFactors,
    previousTreatments := (p.previousTreatments.map some).getD w.previousTreatments,
    updatedAt := now }

/-- Result of `PUT /api/wounds/[id]`. -/
inductive WoundPutResult where
  | invalid
  | notFound
  | updated (w : Wound)
deriving DecidableEq, Repr

/-- HTTP status code of each `PUT /api/wounds/[id]` outcome (a bare
`NextResponse.json(wound)` is a 200). -/
def WoundPutResult.statusCode : WoundPutResult → Nat
  | .invalid => 400
  | .notFound => 404
  | .updated _ => 200

/-- `PUT /api/wounds/[id]`: validate, look the wound up (404), derive
`area`, update the record. -/
def woundPUT (db : DB) (id : String) (now : Nat) (p : UpdateWoundInput) :
    DB × WoundPutResult :=
  if !updateWoundValid p then (db, .invalid)
  else
    match db.wounds.find? (fun w => w.id == id) with
    | none => (db, .notFound)
    | some w0 =>
      let w' := applyWoundUpdate w0 p now
      ({ db with wounds := db.wounds.map (fun w => if w.id == id then w' else w) },
       .updated w')

/-- Result of `DELETE /api/wounds/[id]`. -/
inductive WoundDeleteResult where
  | notFound
  | blocked (treatments images : Nat)
  | deleted
deriving DecidableEq, Repr

/-- HTTP status code of each `DELETE /api/wounds/[id]` outcome.  The
dependent-records branch answers `400` (the handler's literal
`{ status: 400 }`), not `409`. -/
def WoundDeleteResult.statusCode : WoundDeleteResult → Nat
  | .notFound => 404
  | .blocked _ _ => 400
  | .deleted => 200

/-- `DELETE /api/wounds/[id]`: 404 when absent; when treatments or
images reference the wound, refuse with their counts in the response
`details` and leave the store untouched; otherwise hard-delete. -/
def woundDELETE (db : DB) (id : String) : DB × WoundDeleteResult :=
  match db.wounds.find? (fun w => w.id == id) with
  | none => (db, .notFound)
  | some _ =>
    let tcount := (db.treatments.filter (fun t => t.woundId == id)).length
    let icount := (db.images.filter (fun i => i.woundId == id)).length
    if tcount > 0 || icount > 0 then (db, .blocked tcount icount)
    else ({ db with wounds := db.wounds.filter (fun w => w.id != id) }, .deleted)

/-! ## Paginated list endpoints -/

/-- `Math.ceil(total / limit)` over naturals (meaningful for
`limit ≥ 1`; the JS expression yields `Infinity`/`NaN` for
`limit = 0`, which has no `Nat` counterpart). -/
def natCeilDiv (total limit : Nat) : Nat := (total + limit - 1) / limit

/-- The `pagination` object every list endpoint returns:
`{ page, limit, total, pages: Math.ceil(total / limit) }`. -/
structure Pagination where
  page : Nat
  limit : Nat
  total : Nat
  pages : Nat
deriving DecidableEq, Repr

/-- Builds the `pagination` response object. -/
def mkPagination (page limit total : Nat) : Pagination :=
  { page := page, limit := limit, total := total,
    pages := natCeilDiv total limit }

/-- Substring containment, the meaning of a Prisma
`{ contains: sub }` filter (for the non-empty search strings the
handlers pass to it). -/
def strContains (s sub : String) : Bool :=
  (List.range (s.data.length + 1)).any
    (fun i => sub.data.isPrefixOf (s.data.drop i))

/-- Case-insensitive substring containment
(`{ contains: sub, mode: 'insensitive' }`). -/
def ciContains (s sub : String) : Bool :=
  strContains s.toLower sub.toLower

/-- Query parameters of `GET /api/wounds` after
`parseInt(searchParams.get('page') || '1')` etc.; `none` is an absent
(or falsy) parameter. -/
structure WoundListQuery where
  page : Nat
  limit : Nat
  search : String
  patientId : Option String
  status : Option String
  type : Option String
deriving DecidableEq, Repr

/-- Name of the patient a wound belongs to (the `patient` relation the
search filter reaches through; the foreign key guarantees presence). -/
def patientNameOf (db : DB) (w : Wound) : String :=
  ((db.patients.find? (fun q => q.id == w.patientId)).map (fun q => q.name)).getD ""

/-- The `where` object of `GET /api/wounds`: when `search` is truthy,
an `OR` over location / description / patient-name containment;
optional equality filters on `patientId`, `status`, `type`. -/
def woundWhere (db : DB) (q : WoundListQuery) (w : Wound) : Bool :=
  (q.search == "" ||
    (ciContains w.location q.search ||
     ciContains (w.description.getD "") q.search ||
     ciContains (patientNameOf db w) q.search)) &&
  (match q.patientId with | none => true | some pid => w.patientId == pid) &&
  (match q.status with | none => true | some st => w.status == st) &&
  (match q.type with | none => true | some ty => w.type == ty)

/-- `GET /api/wounds` (for `page ≥ 1`, so that the JS
`skip = (page - 1) * limit` is the same natural number): the filtered
page of wounds plus the pagination object, with `total` the count of
all records matching the same `where`. -/
def woundsGET (db : DB) (q : WoundListQuery) : List Wound × Pagination :=
  let filtered := db.wounds.filter (woundWhere db q)
  let skip := (q.page - 1) * q.limit
  ((filtered.drop skip).take q.limit,
   mkPagination q.page q.limit filtered.length)

/-! ## Patient routes (`app/api/patients/route.ts`,
`app/api/patients/[id]/route.ts`) -/

/-- The parsed image of `createPatientSchema`. -/
structure CreatePatientInput where
  name : String
  cpf : String
  rg : Option String
  birthDate : String
  gender : String
  phone : Option String
  email : Option String
  address : Option String
  city : Option String
  state : Option String
  zipCode : Option String
  emergencyContact : Option String
  emergencyPhone : Option String
  allergies : Option String
  comorbidities : Option String
  medications : Option String
  observations : Option String
deriving DecidableEq, Repr

/-- The value constraints of `createPatientSchema` on a parsed
payload: name of length ≥ 2, CPF of exactly 11 digits, gender enum
membership.  (The zod email-format check constrains only the optional
`email` string and is not consulted by any handler logic.) -/
def createPatientValid (p : CreatePatientInput) : Bool :=
  decide (2 ≤ p.name.length) &&
  decide (p.cpf.length = 11) && p.cpf.data.all Char.isDigit &&
  ["MALE", "FEMALE", "OTHER"].contains p.gender

/-- The record `prisma.patient.create` persists:
`{ ...validatedData, responsibleId: userId }`, with the migration
default `status: 'ATIVO'`. -/
def mkPatient (newId : String) (now : Nat) (uid : String)
    (p : CreatePatientInput) : Patient :=
  { id := newId, name := p.name, cpf := p.cpf, rg := p.rg,
    birthDate := p.birthDate, gender := p.gender, phone := p.phone,
    email := p.email, address := p.address, city := p.city,
    state := p.state, zipCode := p.zipCode,
    emergencyContact := p.emergencyContact,
    emergencyPhone := p.emergencyPhone, allergies := p.allergies,
    comorbidities := p.comorbidities, medications := p.medications,
    observations := p.observations, responsibleId := uid,
    status := "ATIVO", updatedAt := now }

/-- Result of `POST /api/patients`. -/
inductive PatientPostResult where
  | dupCpf
  | unauthenticated
  | created (p : Patient)
deriving DecidableEq, Repr

/-- HTTP status code of each `POST /api/patients` outcome. -/
def PatientPostResult.statusCode : PatientPostResult → Nat
  | .dupCpf => 400
  | .unauthenticated => 401
  | .created _ => 201

/-- Response message of the duplicate-CPF branch. -/
def PatientPostResult.message : PatientPostResult → Option String
  | .dupCpf => some "Já existe um paciente com este CPF"
  | _ => none

/-- `POST /api/patients`: reject a CPF that already exists (400),
then require a truthy `x-user-id` header (401), then create. -/
def patientsPOST (db : DB) (headerUserId : Option String) (newId : String)
    (now : Nat) (p : CreatePatientInput) : DB × PatientPostResult :=
  match db.patients.find? (fun q => q.cpf == p.cpf) with
  | some _ => (db, .dupCpf)
  | none =>
    let userId := jsOrStr headerUserId ""
    if userId == "" then (db, .unauthenticated)
    else
      let r := mkPatient newId now userId p
      ({ db with patients := db.patients ++ [r] }, .created r)

/-- `GET /api/patients/[id]`: the record when present (the relation
`include`s add joined data but do not alter its scalar fields),
otherwise a 404. -/
def patientsGETbyId (db : DB) (id : String) : Option Patient :=
  db.patients.find? (fun q => q.id == id)

/-- Query parameters of `GET /api/patients`. -/
structure PatientListQuery where
  page : Nat
  limit : Nat
  search : String
deriving DecidableEq, Repr

/-- The `where` object of `GET /api/patients`: when `search` is
truthy, an `OR` over name (insensitive), cpf (sensitive), email
(insensitive) containment. -/
def patientWhere (q : PatientListQuery) (p : Patient) : Bool :=
  q.search == "" ||
    (ciContains p.name q.search ||
     strContains p.cpf q.search ||
     ciContains (p.email.getD "") q.search)

/-- `GET /api/patients` (for `page ≥ 1`): the filtered page of
patients plus the pagination object. -/
def patientsGET (db : DB) (q : PatientListQuery) : List Patient × Pagination :=
  let filtered := db.patients.filter (patientWhere q)
  let skip := (q.page - 1) * q.limit
  ((filtered.drop skip).take q.limit,
   mkPagination q.page q.limit filtered.length)

/-- Result of `DELETE /api/patients/[id]`. -/
inductive PatientDeleteResult where
  | notFound
  | deactivated (p : Patient)
deriving DecidableEq, Repr

/-- HTTP status code of each `DELETE /api/patients/[id]` outcome (the
success branch is a bare `NextResponse.json(...)`, a 200). -/
def PatientDeleteResult.statusCode : PatientDeleteResult → Nat
  | .notFound => 404
  | .deactivated _ => 200

/-- `DELETE /api/patients/[id]`: a soft delete.  The record is never
removed; `prisma.patient.update` sets `status: 'ALTA'` and
`updatedAt`, and the handler returns the updated record. -/
def patientsDELETE (db : DB) (id : String) (now : Nat) : DB × PatientDeleteResult :=
  match db.patients.find? (fun q => q.id == id) with
  | none => (db, .notFound)
  | some q0 =>
    let q' : Patient := { q0 with status := "ALTA", updatedAt := now }
    ({ db with patients := db.patients.map (fun q => if q.id == id then q' else q) },
     .deactivated q')

/-! ## Request-filtering middleware (`src/middleware.ts`) -/

/-- `String.prototype.startsWith`, expressed over the character
lists so that concrete calls reduce inside the kernel. -/
def jsStartsWith (s pre : String) : Bool := pre.data.isPrefixOf s.data

/-- `publicRoutes` of `middleware.ts` (note the final entry `'/'`). -/
def publicRoutes : List String :=
  ["/api/auth/login", "/api/auth/register", "/api/health",
   "/login", "/register", "/"]

/-- `protectedApiRoutes` of `middleware.ts`. -/
def protectedApiRoutes : List String :=
  ["/api/patients", "/api/wounds", "/api/treatments", "/api/appointments",
   "/api/reports", "/api/telemedicine", "/api/users"]

/-- `protectedDashboardRoutes` of `middleware.ts`. -/
def protectedDashboardRoutes : List String :=
  ["/dashboard", "/patients", "/wounds", "/treatments", "/appointments",
   "/reports", "/telemedicine", "/profile"]

/-- An inbound request as the middleware sees it: the URL pathname and
the token, if any, carried by the `auth-token` cookie or the
`Authorization: Bearer` header. -/
structure MwRequest where
  pathname : String
  cookieToken : Option SignedToken
  bearerToken : Option SignedToken
deriving DecidableEq, Repr

/-- What the middleware returns: pass the request through unchanged,
pass it through with identity headers set, reject with a 401 JSON
body, or redirect to `/login`. -/
inductive MwResult where
  | next
  | nextWithHeaders (headers : List (String × String))
  | unauthorized (msg : String)
  | redirectLogin
deriving DecidableEq, Repr

/-- The `middleware` function: public-route check first
(`pathname === route || pathname.startsWith(route)`), then the
protected-route token check, verification, and identity-header
forwarding. -/
def middleware (secret : String) (now : Nat) (req : MwRequest) : MwResult :=
  if publicRoutes.any (fun r => req.pathname == r || jsStartsWith req.pathname r) then
    .next
  else
    let isProtectedApi := protectedApiRoutes.any (fun r => jsStartsWith req.pathname r)
    let isProtectedDashboard :=
      protectedDashboardRoutes.any (fun r => jsStartsWith req.pathname r)
    if isProtectedApi || isProtectedDashboard then
      match req.cookieToken.orElse (fun _ => req.bearerToken) with
      | none =>
        if isProtectedApi then .unauthorized "Token de acesso requerido"
        else .redirectLogin
      | some token =>
        match verifyToken secret now token with
        | none =>
          if isProtectedApi then .unauthorized "Token inválido ou expirado"
          else .redirectLogin
        | some payload =>
          .nextWithHeaders
            [("x-user-id", payload.userId), ("x-user-email", payload.email),
             ("x-user-role", payload.role.key), ("x-user-name", payload.name)]
    else .next


/-- A concrete patient for counterexamples and witnesses. -/
def examplePatient : Patient :=
  { id := "p1", name := "Maria Souza", cpf := "12345678901", rg := none,
    birthDate := "1960-01-01", gender := "FEMALE", phone := none,
    email := none, address := none, city := none, state := none,
    zipCode := none, emergencyContact := none, emergencyPhone := none,
    allergies := none, comorbidities := none, medications := none,
    observations := none, responsibleId := "u1", status := "ATIVO",
    updatedAt := 0 }

/-- A concrete wound for counterexamples and witnesses. -/
def exampleWound : Wound :=
  { id := "w1", patientId := "p1", location := "calcanhar direito",
    type := "PRESSURE_ULCER", stage := none, length := none,
    width := none, depth := none, area := none, tissueType := none,
    exudate := none, exudateType := none, odor := none, pain := none,
    edema := none, infection := none, temperature := none,
    periwoundSkin := none, description := none, riskFactors := none,
    previousTreatments := none, status := "ACTIVE", createdById := "u1",
    updatedAt := 0 }

/-- A store whose only wound has one associated treatment. -/
def dbWithTreatment : DB :=
  { patients := [examplePatient], wounds := [exampleWound],
    treatments := [{ id := "t1", woundId := "w1", patientId := "p1" }],
    images := [] }

/-- A store whose only wound has no treatments and no images. -/
def dbNoDependents : DB :=
  { patients := [examplePatient], wounds := [exampleWound],
    treatments := [], images := [] }

/-- A concrete create-wound payload for witnesses (no `area`,
length 2 and width 3). -/
def exampleCreateWound : CreateWoundInput :=
  { patientId := "p1", location := "sacro", type := "PRESSURE_ULCER",
    stage := none, length := some 2, width := some 3, depth := none,
    area := none, tissueType := none, exudate := none,
    exudateType := none, odor := none, pain := none, edema := none,
    infection := none, temperature := none, periwoundSkin := none,
    description := none, riskFactors := none, previousTreatments := none }

/-- A concrete update-wound payload for witnesses (no `area`,
length 4 and width 5). -/
def exampleUpdateWound : UpdateWoundInput :=
  { location := none, type := none, stage := none, status := none,
    length := some 4, width := some 5, depth := none, area := none,
    tissueType := none, exudate := none, exudateType := none,
    odor := none, pain := none, edema := none, infection := none,
    temperature := none, periwoundSkin := none, description := none,
    riskFactors := none, previousTreatments := none }

/-- A concrete create-patient payload for witnesses. -/
def exampleCreatePatient : CreatePatientInput :=
  { name := "José Lima", cpf := "98765432100", rg := none,
    birthDate := "1955-05-05", gender := "MALE", phone := none,
    email := none, address := none, city := none, state := none,
    zipCode := none, emergencyContact := none, emergencyPhone := none,
    allergies := none, comorbidities := none, medications := none,
    observations := none }

/-- The empty store. -/
def emptyDB : DB := { patients := [], wounds := [], treatments := [], images := [] }

/-- A wound-list query asking for page 100 of an empty result set. -/
def farPageQuery : WoundListQuery :=
  { page := 100, limit := 10, search := "", patientId := none,
    status := none, type := none }

/-- A wound-list query for the first page. -/
def firstPageQuery : WoundListQuery :=
  { page := 1, limit := 10, search := "", patientId := none,
    status := none, type := none }

/-- A patient-list query for the first page. -/
def firstPagePatientQuery : PatientListQuery :=
  { page := 1, limit := 10, search := "" }

/-! ## Theorems -/

/-- C1: verifying a token produced by issuing a token over a claims
payload returns exactly those claims while verification happens
strictly before the token's expiry (`iat + 7d`), returns `none` at or
after expiry, and returns `none` when the verifying secret differs
from the signing secret (an invalid signature). -/
theorem verifyToken_generateToken_roundtrip
    (claims : JWTPayload) (secret : String) (issuedAt checkedAt : Nat) :
    (checkedAt < issuedAt + sevenDays →
      verifyToken secret checkedAt (generateToken secret issuedAt claims) = some claims) ∧
    (issuedAt + sevenDays ≤ checkedAt →
      verifyToken secret checkedAt (generateToken secret issuedAt claims) = none) ∧
    (∀ otherSecret : String, otherSecret ≠ secret →
      verifyToken otherSecret checkedAt (generateToken secret issuedAt claims) = none) := by
  refine ⟨fun h => ?_, fun h => ?_, fun s hs => ?_⟩
  · simp [verifyToken, generateToken, jwtVerify, jwtSign, h]
  · have h2 : ¬ checkedAt < issuedAt + sevenDays := by omega
    simp [verifyToken, generateToken, jwtVerify, jwtSign, h2]
  · have h2 : secret ≠ s := fun e => hs e.symm
    simp [verifyToken, generateToken, jwtVerify, jwtSign, h2]

/-- Witness for C1: a concrete round trip 100 seconds after issuance. -/
theorem verifyToken_generateToken_roundtrip_witness :
    verifyToken "s3cret" 100 (generateToken "s3cret" 0
      { userId := "u1", email := "ana@example.com", role := .DOCTOR, name := "Ana" }) =
    some { userId := "u1", email := "ana@example.com", role := .DOCTOR, name := "Ana" } :=
  (verifyToken_generateToken_roundtrip
      { userId := "u1", email := "ana@example.com", role := .DOCTOR, name := "Ana" }
      "s3cret" 0 100).1 (by decide)

/-- C2: for every role present in the static `ROLE_PERMISSIONS` table
and every permission string, `hasPermission` answers `true` exactly
when the permission appears in the role's permission list. -/
theorem hasPermission_iff_mem_table (role : String) (perms : List String)
    (permission : String)
    (hrole : ROLE_PERMISSIONS.lookup role = some perms) :
    hasPermission role permission = true ↔ permission ∈ perms := by
  simp [hasPermission, hrole]

/-- Witness for C2: the NURSE role holds `wound:update`. -/
theorem hasPermission_iff_mem_table_witness :
    hasPermission "NURSE" "wound:update" = true :=
  (hasPermission_iff_mem_table "NURSE"
      [ "patient:read", "patient:update",
        "wound:create", "wound:read", "wound:update",
        "treatment:create", "treatment:read", "treatment:update",
        "telemedicine:access" ]
      "wound:update" (by rfl)).mpr (by decide)

/-- C8: `hasPermission` is total and deterministic over all role and
permission strings, including roles absent from the table: every call
yields a boolean, and equal arguments yield equal results. -/
theorem hasPermission_total_deterministic (role permission : String) :
    (hasPermission role permission = true ∨ hasPermission role permission = false) ∧
    (∀ role2 permission2, role2 = role → permission2 = permission →
      hasPermission role2 permission2 = hasPermission role permission) := by
  constructor
  · cases h : hasPermission role permission
    · exact Or.inr rfl
    · exact Or.inl rfl
  · intro r2 p2 hr hp
    rw [hr, hp]

/-- Witness for C8, at a role string absent from the table. -/
theorem hasPermission_total_deterministic_witness :
    hasPermission "GHOST" "patient:read" = hasPermission "GHOST" "patient:read" :=
  (hasPermission_total_deterministic "GHOST" "patient:read").2 "GHOST" "patient:read" rfl rfl

/-- C6 (code evaluated at the failing input): an unauthenticated
request to the protected path `/api/patients` is passed straight
through by the middleware instead of being rejected with a 401,
because `publicRoutes` contains `'/'` and the public-route test is
`pathname === route || pathname.startsWith(route)` — every pathname
starts with `'/'`, so the public-route test always succeeds and the
whole token check below it is unreachable. -/
theorem middleware_protected_path_passthrough :
    middleware "server-secret" 0
      { pathname := "/api/patients", cookieToken := none, bearerToken := none } =
    .next ∧
    middleware "server-secret" 0
      { pathname := "/dashboard", cookieToken := none, bearerToken := none } =
    .next := by
  constructor
  · decide
  · decide


/-- C3 counterexample: deleting wound `w1`, which has exactly one
associated treatment, is refused with HTTP status 400 — not 409 as
the claim states — though the response does carry the dependent
counts. -/
theorem woundDELETE_409_counterexample :
    (woundDELETE dbWithTreatment "w1").2 = .blocked 1 0 ∧
    ((woundDELETE dbWithTreatment "w1").2).statusCode = 400 ∧
    ¬ ((woundDELETE dbWithTreatment "w1").2).statusCode = 409 := by
  refine ⟨by decide, by decide, by decide⟩

/-- C3 amended: for every wound id that exists, the DELETE succeeds
with status 200 and hard-deletes the record when it has zero
associated treatments and zero images; when it has at least one of
either, it fails with status 400 (not 409) and a response carrying
the counts of blocking treatments and images, leaving the store
unchanged. -/
theorem woundDELETE_spec (db : DB) (id : String) (w0 : Wound) (t i : Nat)
    (hfind : db.wounds.find? (fun w => w.id == id) = some w0)
    (ht : (db.treatments.filter (fun x => x.woundId == id)).length = t)
    (hi : (db.images.filter (fun x => x.woundId == id)).length = i) :
    (t = 0 ∧ i = 0 →
      woundDELETE db id =
        ({ db with wounds := db.wounds.filter (fun w => w.id != id) }, .deleted) ∧
      ((woundDELETE db id).2).statusCode = 200 ∧
      ∀ w ∈ (woundDELETE db id).1.wounds, w.id ≠ id) ∧
    (0 < t ∨ 0 < i →
      woundDELETE db id = (db, .blocked t i) ∧
      ((woundDELETE db id).2).statusCode = 400 ∧
      (woundDELETE db id).1 = db) := by
  subst ht hi
  constructor
  · rintro ⟨h0, h1⟩
    have hres : woundDELETE db id =
        ({ db with wounds := db.wounds.filter (fun w => w.id != id) }, .deleted) := by
      unfold woundDELETE
      rw [hfind]
      simp [h0, h1]
    refine ⟨hres, by rw [hres]; rfl, ?_⟩
    rw [hres]
    intro w hw
    have := (List.mem_filter.mp hw).2
    simpa using this
  · intro h0
    have hres : woundDELETE db id =
        (db, .blocked (db.treatments.filter (fun x => x.woundId == id)).length
                      (db.images.filter (fun x => x.woundId == id)).length) := by
      unfold woundDELETE
      rw [hfind]
      have hcond : ((db.treatments.filter (fun x => x.woundId == id)).length > 0 ||
          (db.images.filter (fun x => x.woundId == id)).length > 0) = true := by
        rcases h0 with h | h <;> simp [h]
      simp [hcond]
    exact ⟨hres, by rw [hres]; rfl, by rw [hres]⟩

/-- Witness for the amended C3: both branches at concrete stores. -/
theorem woundDELETE_spec_witness :
    (woundDELETE dbNoDependents "w1" =
      ({ dbNoDependents with wounds := [] }, .deleted) ∧
     ((woundDELETE dbNoDependents "w1").2).statusCode = 200) ∧
    (woundDELETE dbWithTreatment "w1" = (dbWithTreatment, .blocked 1 0) ∧
     ((woundDELETE dbWithTreatment "w1").2).statusCode = 400) := by
  have h1 := (woundDELETE_spec dbNoDependents "w1" exampleWound 0 0
      (by decide) (by decide) (by decide)).1 ⟨rfl, rfl⟩
  have h2 := (woundDELETE_spec dbWithTreatment "w1" exampleWound 1 0
      (by decide) (by decide) (by decide)).2 (Or.inl (by decide))
  refine ⟨⟨?_, h1.2.1⟩, h2.1, h2.2.1⟩
  have := h1.1
  simpa [dbNoDependents] using this

/-- Helper: the derived area when the payload omits `area` and
supplies non-zero length and width. -/
theorem computeWoundArea_area_omitted (l wdt : ℚ) (hl : l ≠ 0) (hw : wdt ≠ 0) :
    computeWoundArea none (some l) (some wdt) = some (l * wdt) := by
  simp [computeWoundArea, qTruthy, hl, hw]

/-- Helper: a supplied non-zero `area` is kept verbatim. -/
theorem computeWoundArea_area_supplied (a : ℚ) (ha : a ≠ 0) (l wdt : Option ℚ) :
    computeWoundArea (some a) l wdt = some a := by
  simp [computeWoundArea, qTruthy, ha]

/-- Helper: a schema-valid create payload has positive measurements. -/
theorem createWoundValid_measurements (p : CreateWoundInput)
    (hv : createWoundValid p = true) :
    optPos p.length = true ∧ optPos p.width = true ∧ optPos p.area = true := by
  revert hv
  unfold createWoundValid
  simp only [Bool.and_eq_true]
  tauto

/-- Helper: a schema-valid update payload has positive measurements. -/
theorem updateWoundValid_measurements (p : UpdateWoundInput)
    (hv : updateWoundValid p = true) :
    optPos p.length = true ∧ optPos p.width = true ∧ optPos p.area = true := by
  revert hv
  unfold updateWoundValid
  simp only [Bool.and_eq_true]
  tauto

/-- C9: every record the wound POST creates has status `'ACTIVE'`:
the create schema (`CreateWoundInput`) carries no `status` field, and
the handler writes the literal `'ACTIVE'`, so a caller cannot choose
an initial status. -/
theorem woundPOST_status_ACTIVE (db : DB) (h : Option String)
    (newId : String) (now : Nat) (p : CreateWoundInput) (w : Wound)
    (hres : (woundPOST db h newId now p).2 = .created w) :
    w.status = "ACTIVE" := by
  unfold woundPOST at hres
  split at hres
  · simp at hres
  · split at hres
    · simp at hres
    · simp only [WoundPostResult.created.injEq] at hres
      rw [← hres]
      rfl

/-- Witness for C9: a concrete successful create. -/
theorem woundPOST_status_ACTIVE_witness :
    ∃ w, (woundPOST dbNoDependents (some "u2") "w2" 7 exampleCreateWound).2 =
        .created w ∧ w.status = "ACTIVE" :=
  ⟨mkWoundRecord "w2" 7 "u2" exampleCreateWound, rfl,
   woundPOST_status_ACTIVE dbNoDependents (some "u2") "w2" 7 exampleCreateWound
     (mkWoundRecord "w2" 7 "u2" exampleCreateWound) rfl⟩

/-- C4: for every schema-valid wound create payload and every
schema-valid wound update payload that supply both `length` and
`width`, the persisted and returned record's `area` is
`length * width` when `area` is omitted, and is the supplied value
when `area` is supplied explicitly. -/
theorem wound_area_derivation
    (db : DB) (h : Option String) (newId : String) (now : Nat)
    (p : CreateWoundInput) (l1 w1 : ℚ)
    (hv : createWoundValid p = true)
    (hl : p.length = some l1) (hw : p.width = some w1)
    (hpat : (db.patients.find? (fun q => q.id == p.patientId)).isSome = true)
    (id : String) (wrec : Wound) (u : UpdateWoundInput) (l2 w2 : ℚ)
    (hu : updateWoundValid u = true)
    (hul : u.length = some l2) (huw : u.width = some w2)
    (hufind : db.wounds.find? (fun w => w.id == id) = some wrec) :
    ((p.area = none →
        ∃ w, (woundPOST db h newId now p).2 = .created w ∧
          w.area = some (l1 * w1)) ∧
     (∀ a, p.area = some a →
        ∃ w, (woundPOST db h newId now p).2 = .created w ∧
          w.area = some a)) ∧
    ((u.area = none →
        ∃ w, (woundPUT db id now u).2 = .updated w ∧
          w.area = some (l2 * w2)) ∧
     (∀ a, u.area = some a →
        ∃ w, (woundPUT db id now u).2 = .updated w ∧
          w.area = some a)) := by
  have hm := createWoundValid_measurements p hv
  have hl1 : (0:ℚ) < l1 := by
    have h1 := hm.1
    rw [hl] at h1
    simpa [optPos] using h1
  have hw1 : (0:ℚ) < w1 := by
    have h1 := hm.2.1
    rw [hw] at h1
    simpa [optPos] using h1
  have hum := updateWoundValid_measurements u hu
  have hl2 : (0:ℚ) < l2 := by
    have h1 := hum.1
    rw [hul] at h1
    simpa [optPos] using h1
  have hw2 : (0:ℚ) < w2 := by
    have h1 := hum.2.1
    rw [huw] at h1
    simpa [optPos] using h1
  have hpost : (woundPOST db h newId now p).2 =
      .created (mkWoundRecord newId now (jsOrStr h "user-1") p) := by
    obtain ⟨q, hq⟩ := Option.isSome_iff_exists.mp hpat
    simp [woundPOST, hv, hq]
  have hput : (woundPUT db id now u).2 =
      .updated (applyWoundUpdate wrec u now) := by
    simp [woundPUT, hu, hufind]
  refine ⟨⟨fun hA => ⟨_, hpost, ?_⟩, fun a hA => ⟨_, hpost, ?_⟩⟩,
          ⟨fun hA => ⟨_, hput, ?_⟩, fun a hA => ⟨_, hput, ?_⟩⟩⟩
  · show computeWoundArea p.area p.length p.width = some (l1 * w1)
    rw [hA, hl, hw]
    exact computeWoundArea_area_omitted l1 w1 (ne_of_gt hl1) (ne_of_gt hw1)
  · show computeWoundArea p.area p.length p.width = some a
    have ha : (0:ℚ) < a := by
      have h1 := hm.2.2
      rw [hA] at h1
      simpa [optPos] using h1
    rw [hA]
    exact computeWoundArea_area_supplied a (ne_of_gt ha) _ _
  · show ((computeWoundArea u.area u.length u.width).map some).getD wrec.area =
      some (l2 * w2)
    rw [hA, hul, huw,
      computeWoundArea_area_omitted l2 w2 (ne_of_gt hl2) (ne_of_gt hw2)]
    rfl
  · show ((computeWoundArea u.area u.length u.width).map some).getD wrec.area =
      some a
    have ha : (0:ℚ) < a := by
      have h1 := hum.2.2
      rw [hA] at h1
      simpa [optPos] using h1
    rw [hA, computeWoundArea_area_supplied a (ne_of_gt ha) _ _]
    rfl

/-- Witness for C4: creating with length 2, width 3 and no area
yields area 6; updating with length 4, width 5 and no area yields
area 20. -/
theorem wound_area_derivation_witness :
    (∃ w, (woundPOST dbNoDependents (some "u2") "w9" 7 exampleCreateWound).2 =
        .created w ∧ w.area = some 6) ∧
    (∃ w, (woundPUT dbNoDependents "w1" 7 exampleUpdateWound).2 =
        .updated w ∧ w.area = some 20) := by
  have h := wound_area_derivation dbNoDependents (some "u2") "w9" 7
    exampleCreateWound 2 3 (by decide) rfl rfl (by decide)
    "w1" exampleWound exampleUpdateWound 4 5 (by decide) rfl rfl (by decide)
  constructor
  · obtain ⟨w, hw1, hw2⟩ := h.1.1 rfl
    refine ⟨w, hw1, ?_⟩
    rw [hw2]
    norm_num
  · obtain ⟨w, hw1, hw2⟩ := h.2.1 rfl
    refine ⟨w, hw1, ?_⟩
    rw [hw2]
    norm_num

/-- C10: the patient DELETE never removes the record.  It returns the
record with `status` set to `'ALTA'` and `updatedAt` refreshed, every
other field unchanged; the store keeps the same number of patients,
the returned record is in it, and records with other ids survive
untouched. -/
theorem patientsDELETE_soft_delete (db : DB) (id : String) (now : Nat)
    (q0 : Patient)
    (hfind : db.patients.find? (fun q => q.id == id) = some q0) :
    ∃ q1, patientsDELETE db id now =
        ({ db with patients :=
            db.patients.map (fun q => if q.id == id then q1 else q) },
         .deactivated q1) ∧
      (PatientDeleteResult.deactivated q1).statusCode = 200 ∧
      q1.status = "ALTA" ∧ q1.updatedAt = now ∧
      q1.id = q0.id ∧ q1.name = q0.name ∧ q1.cpf = q0.cpf ∧ q1.rg = q0.rg ∧
      q1.birthDate = q0.birthDate ∧ q1.gender = q0.gender ∧
      q1.phone = q0.phone ∧ q1.email = q0.email ∧ q1.address = q0.address ∧
      q1.city = q0.city ∧ q1.state = q0.state ∧ q1.zipCode = q0.zipCode ∧
      q1.emergencyContact = q0.emergencyContact ∧
      q1.emergencyPhone = q0.emergencyPhone ∧ q1.allergies = q0.allergies ∧
      q1.comorbidities = q0.comorbidities ∧ q1.medications = q0.medications ∧
      q1.observations = q0.observations ∧
      q1.responsibleId = q0.responsibleId ∧
      (patientsDELETE db id now).1.patients.length = db.patients.length ∧
      q1 ∈ (patientsDELETE db id now).1.patients ∧
      ∀ r ∈ db.patients, r.id ≠ id →
        r ∈ (patientsDELETE db id now).1.patients := by
  have hres : patientsDELETE db id now =
      ({ db with patients :=
          db.patients.map (fun q => if q.id == id then
            { q0 with status := "ALTA", updatedAt := now } else q) },
       .deactivated { q0 with status := "ALTA", updatedAt := now }) := by
    unfold patientsDELETE
    rw [hfind]
  have hq0mem : q0 ∈ db.patients := List.mem_of_find?_eq_some hfind
  have hq0id := List.find?_some hfind
  have hlen : (patientsDELETE db id now).1.patients.length =
      db.patients.length := by
    rw [hres]
    exact List.length_map _ _
  have hmem : { q0 with status := "ALTA", updatedAt := now } ∈
      (patientsDELETE db id now).1.patients := by
    rw [hres]
    refine List.mem_map.mpr ⟨q0, hq0mem, ?_⟩
    simp only at hq0id
    simp [hq0id]
  have hall : ∀ r ∈ db.patients, r.id ≠ id →
      r ∈ (patientsDELETE db id now).1.patients := by
    intro r hr hne
    rw [hres]
    refine List.mem_map.mpr ⟨r, hr, ?_⟩
    simp [hne]
  exact ⟨{ q0 with status := "ALTA", updatedAt := now }, hres, rfl, rfl, rfl,
    rfl, rfl, rfl, rfl, rfl, rfl, rfl, rfl, rfl, rfl, rfl, rfl, rfl, rfl,
    rfl, rfl, rfl, rfl, rfl, hlen, hmem, hall⟩

/-- Witness for C10: soft-deleting patient `p1`. -/
theorem patientsDELETE_soft_delete_witness :
    ∃ q1, (patientsDELETE dbNoDependents "p1" 9).2 = .deactivated q1 ∧
      q1.status = "ALTA" ∧ q1.updatedAt = 9 ∧ q1.name = "Maria Souza" ∧
      (patientsDELETE dbNoDependents "p1" 9).1.patients.length = 1 := by
  obtain ⟨q1, hres, _, hst, hup, _, hname, hrest⟩ :=
    patientsDELETE_soft_delete dbNoDependents "p1" 9 examplePatient rfl
  refine ⟨q1, by rw [hres], hst, hup, ?_, ?_⟩
  · rw [hname]
    rfl
  · rw [hres]
    rfl

/-- C5: creating a patient whose CPF some existing patient already
carries fails with status 400 and the duplicate-CPF message, creating
nothing; creating with a CPF no patient carries (in an authenticated
request, with a fresh generated id) succeeds with status 201, and a
GET by the returned id yields a record carrying exactly the submitted
field values. -/
theorem patientsPOST_cpf_uniqueness (db : DB) (p : CreatePatientInput)
    (uid newId : String) (now : Nat)
    (hvalid : createPatientValid p = true) (huid : uid ≠ "") :
    ((∃ q ∈ db.patients, q.cpf = p.cpf) →
      patientsPOST db (some uid) newId now p = (db, .dupCpf) ∧
      (PatientPostResult.dupCpf).statusCode = 400 ∧
      (PatientPostResult.dupCpf).message =
        some "Já existe um paciente com este CPF") ∧
    ((∀ q ∈ db.patients, q.cpf ≠ p.cpf) →
      (∀ q ∈ db.patients, q.id ≠ newId) →
      ∃ r, patientsPOST db (some uid) newId now p =
          ({ db with patients := db.patients ++ [r] }, .created r) ∧
        (PatientPostResult.created r).statusCode = 201 ∧
        patientsGETbyId { db with patients := db.patients ++ [r] } newId =
          some r ∧
        r.id = newId ∧ r.name = p.name ∧ r.cpf = p.cpf ∧ r.rg = p.rg ∧
        r.birthDate = p.birthDate ∧ r.gender = p.gender ∧
        r.phone = p.phone ∧ r.email = p.email ∧ r.address = p.address ∧
        r.city = p.city ∧ r.state = p.state ∧ r.zipCode = p.zipCode ∧
        r.emergencyContact = p.emergencyContact ∧
        r.emergencyPhone = p.emergencyPhone ∧ r.allergies = p.allergies ∧
        r.comorbidities = p.comorbidities ∧ r.medications = p.medications ∧
        r.observations = p.observations ∧ r.status = "ATIVO") := by
  constructor
  · rintro ⟨q, hq, hcpf⟩
    have hsome : (db.patients.find? (fun x => x.cpf == p.cpf)).isSome := by
      rw [List.find?_isSome]
      exact ⟨q, hq, by simp [hcpf]⟩
    obtain ⟨q2, hq2⟩ := Option.isSome_iff_exists.mp hsome
    refine ⟨?_, rfl, rfl⟩
    unfold patientsPOST
    rw [hq2]
  · intro hnone hfresh
    have hfind : db.patients.find? (fun x => x.cpf == p.cpf) = none := by
      rw [List.find?_eq_none]
      intro x hx
      simp [hnone x hx]
    have hres : patientsPOST db (some uid) newId now p =
        ({ db with patients := db.patients ++ [mkPatient newId now uid p] },
         .created (mkPatient newId now uid p)) := by
      unfold patientsPOST
      rw [hfind]
      simp [jsOrStr, huid]
    have hget : patientsGETbyId
        { db with patients := db.patients ++ [mkPatient newId now uid p] }
        newId = some (mkPatient newId now uid p) := by
      unfold patientsGETbyId
      have h1 : db.patients.find? (fun q => q.id == newId) = none := by
        rw [List.find?_eq_none]
        intro x hx
        simp [hfresh x hx]
      rw [List.find?_append, h1]
      simp [mkPatient]
    exact ⟨mkPatient newId now uid p, hres, rfl, hget, rfl, rfl, rfl, rfl,
      rfl, rfl, rfl, rfl, rfl, rfl, rfl, rfl, rfl, rfl, rfl, rfl, rfl, rfl,
      rfl⟩

/-- Witness for C5: both branches at a concrete store. -/
theorem patientsPOST_cpf_uniqueness_witness :
    (patientsPOST dbNoDependents (some "u1") "p2" 11
        { exampleCreatePatient with cpf := "12345678901" } =
      (dbNoDependents, .dupCpf)) ∧
    (∃ r, patientsPOST dbNoDependents (some "u1") "p2" 11
          exampleCreatePatient =
        ({ dbNoDependents with
            patients := dbNoDependents.patients ++ [r] }, .created r) ∧
      patientsGETbyId
        { dbNoDependents with
            patients := dbNoDependents.patients ++ [r] } "p2" = some r ∧
      r.cpf = "98765432100") := by
  constructor
  · exact ((patientsPOST_cpf_uniqueness dbNoDependents
      { exampleCreatePatient with cpf := "12345678901" } "u1" "p2" 11
      (by decide) (by decide)).1
      ⟨examplePatient, by decide, by decide⟩).1
  · obtain ⟨r, hres, _, hget, _, _, hcpf, hrest⟩ :=
      (patientsPOST_cpf_uniqueness dbNoDependents exampleCreatePatient
        "u1" "p2" 11 (by decide) (by decide)).2
        (by intro q hq; fin_cases hq <;> decide)
        (by intro q hq; fin_cases hq <;> decide)
    refine ⟨r, hres, hget, ?_⟩
    rw [hcpf]
    rfl

/-- Helper: characterization of `Math.ceil(total / limit)` for
`limit ≥ 1`: it is the least page count covering `total` items. -/
theorem natCeilDiv_bounds (total limit : Nat) (hl : 1 ≤ limit) :
    total ≤ natCeilDiv total limit * limit ∧
    natCeilDiv total limit * limit < total + limit := by
  unfold natCeilDiv
  have h1 := Nat.div_add_mod (total + limit - 1) limit
  have h2 : (total + limit - 1) % limit < limit := Nat.mod_lt _ (by omega)
  have hc : ((total + limit - 1) / limit) * limit =
      limit * ((total + limit - 1) / limit) := Nat.mul_comm _ _
  omega

/-- Helper: when the returned page is non-empty, the requested
`page * limit` is bounded by `total + limit`. -/
theorem paging_nonempty_bound {α : Type} (items : List α) (page limit : Nat)
    (hp : 1 ≤ page)
    (hne : (items.drop ((page - 1) * limit)).take limit ≠ []) :
    page * limit ≤ items.length + limit := by
  have h1 : (page - 1) * limit < items.length := by
    by_contra hcon
    push_neg at hcon
    have hd : items.drop ((page - 1) * limit) = [] :=
      List.drop_eq_nil_of_le hcon
    rw [hd] at hne
    simp at hne
  have h2 : page * limit = (page - 1) * limit + limit := by
    obtain ⟨n, rfl⟩ : ∃ n, page = n + 1 := ⟨page - 1, by omega⟩
    simp [Nat.succ_mul]
  omega

/-- C7 counterexample: requesting page 100 with limit 10 of an empty
result set is answered with `pagination.page = 100` verbatim, so
`page * limit = 1000` exceeds `total + limit = 10`. -/
theorem pagination_page_bound_counterexample :
    (woundsGET emptyDB farPageQuery).2.page *
      (woundsGET emptyDB farPageQuery).2.limit >
    (woundsGET emptyDB farPageQuery).2.total +
      (woundsGET emptyDB farPageQuery).2.limit := by decide

/-- C7 amended: for every store and every query with `page ≥ 1` and
`limit ≥ 1`, the reported `pages` field of both paginated list
endpoints is exactly `ceil(total / limit)` (characterized as the
least multiple of `limit` covering `total`), and the bound
`page * limit ≤ total + limit` holds whenever the returned page of
items is non-empty — an out-of-range `page` is echoed back verbatim,
so the bound does not hold unconditionally. -/
theorem pagination_spec (db : DB) (q : WoundListQuery)
    (qp : PatientListQuery)
    (hq1 : 1 ≤ q.page) (hq2 : 1 ≤ q.limit)
    (hp1 : 1 ≤ qp.page) (hp2 : 1 ≤ qp.limit) :
    ((woundsGET db q).2.total ≤
        (woundsGET db q).2.pages * (woundsGET db q).2.limit ∧
     (woundsGET db q).2.pages * (woundsGET db q).2.limit <
        (woundsGET db q).2.total + (woundsGET db q).2.limit ∧
     ((woundsGET db q).1 ≠ [] →
        (woundsGET db q).2.page * (woundsGET db q).2.limit ≤
          (woundsGET db q).2.total + (woundsGET db q).2.limit)) ∧
    ((patientsGET db qp).2.total ≤
        (patientsGET db qp).2.pages * (patientsGET db qp).2.limit ∧
     (patientsGET db qp).2.pages * (patientsGET db qp).2.limit <
        (patientsGET db qp).2.total + (patientsGET db qp).2.limit ∧
     ((patientsGET db qp).1 ≠ [] →
        (patientsGET db qp).2.page * (patientsGET db qp).2.limit ≤
          (patientsGET db qp).2.total + (patientsGET db qp).2.limit)) := by
  refine ⟨⟨?_, ?_, ?_⟩, ⟨?_, ?_, ?_⟩⟩
  · exact (natCeilDiv_bounds
      ((db.wounds.filter (woundWhere db q)).length) q.limit hq2).1
  · exact (natCeilDiv_bounds
      ((db.wounds.filter (woundWhere db q)).length) q.limit hq2).2
  · intro hne
    exact paging_nonempty_bound (db.wounds.filter (woundWhere db q))
      q.page q.limit hq1 hne
  · exact (natCeilDiv_bounds
      ((db.patients.filter (patientWhere qp)).length) qp.limit hp2).1
  · exact (natCeilDiv_bounds
      ((db.patients.filter (patientWhere qp)).length) qp.limit hp2).2
  · intro hne
    exact paging_nonempty_bound (db.patients.filter (patientWhere qp))
      qp.page qp.limit hp1 hne

/-- Witness for the amended C7: page 1, limit 10 over a store with
one wound and one patient. -/
theorem pagination_spec_witness :
    ((woundsGET dbNoDependents firstPageQuery).2.total ≤
      (woundsGET dbNoDependents firstPageQuery).2.pages *
        (woundsGET dbNoDependents firstPageQuery).2.limit) ∧
    ((woundsGET dbNoDependents firstPageQuery).2.page *
        (woundsGET dbNoDependents firstPageQuery).2.limit ≤
      (woundsGET dbNoDependents firstPageQuery).2.total +
        (woundsGET dbNoDependents firstPageQuery).2.limit) := by
  have h := pagination_spec dbNoDependents firstPageQuery
    firstPagePatientQuery (by decide) (by decide) (by decide) (by decide)
  exact ⟨h.1.1, h.1.2.2 (by decide)⟩
